import Mathlib

/-!
Verification of the Infrapass enforcement dataplane against its Rust source.
The definitions below are a shallow embedding of the source functions named
in each doc comment:

* src/utils/constants.rs    constant LUA_ATOMIC_CHECK_AND_DECREMENT
* src/adapters/cache.rs     CachedEntitlement and its allowed method
* src/sidecar/validator.rs  ValidateResponse, ValidatorError, to_cached
* src/sidecar/proxy.rs      proxy_handler, deny_response, set_entitlement,
                            set_quota, invalidate_entitlement
* src/sidecar/middleware.rs auth_middleware
* src/bin/sidecar.rs        router wiring (routes, route_layer, fallback)
* src/pubsub/types.rs       EntitlementUpdateEvent, TierEntitlement
* src/pubsub/subscriber.rs  run_pubsub_listener, one message step

Modelling conventions: timestamps are integer milliseconds (chrono DateTime
with millisecond precision), TTLs are natural seconds, u64 and i64 values
are Nat and Int with the explicit wrap-around cast castI64 where the source
performs an `as i64` cast. The Redis state relevant to one fixed pair of
user address and service id is a record holding the entitlement key value
and the quota counter key value together with their TTLs.
-/

namespace Infrapass

/-- Wrapping cast from u64 to i64, as performed by the Rust `as i64` casts in
proxy.rs (cost as i64, quota as i64, units as i64). -/
def castI64 (n : Nat) : Int :=
  if n < 2 ^ 63 then (n : Int) else (n : Int) - 2 ^ 64

/-- Helper for parseU64: read a list of decimal digit characters,
accumulating the value; any non-digit character fails. -/
def digitsToNat : List Char → Nat → Option Nat
  | [], acc => some acc
  | c :: rest, acc =>
      if c.isDigit then digitsToNat rest (acc * 10 + (c.toNat - 48)) else none

/-- Rust `str::parse::<u64>()` as used on the cost header in proxy.rs: an
optional leading plus sign, then one or more decimal digits, value within
the u64 range. -/
def parseU64 (s : String) : Option Nat :=
  let cs : List Char :=
    match s.data with
    | '+' :: rest => rest
    | l => l
  match cs with
  | [] => none
  | _ =>
      match digitsToNat cs 0 with
      | some v => if v < 2 ^ 64 then some v else none
      | none => none

/-- chrono Duration num_seconds on a duration given in milliseconds:
truncation toward zero. -/
def numSecondsOf (ms : Int) : Int :=
  Int.sign ms * (ms.natAbs / 1000)

/-- A header value as seen through axum HeaderValue::to_str: either it
converts to a visible-ASCII string or the conversion fails. -/
inductive HVal where
  | valid (s : String)
  | invalid
deriving Repr, DecidableEq

/-- HeaderValue::to_str as an Option. -/
def HVal.toStr : HVal → Option String
  | .valid s => some s
  | .invalid => none

/-- CachedEntitlement from src/adapters/cache.rs. Timestamps in integer
milliseconds. -/
structure CachedEntitlement where
  id : String
  tier : String
  quota : Option Nat
  units : Option Nat
  tier_type : Nat
  expires_at : Option Int
  cached_at : Option Int
deriving Repr, DecidableEq

/-- CachedEntitlement::allowed from src/adapters/cache.rs: tier 0 checks
expiry only, tier 2 checks quota positive and expiry, tier 3 checks units
positive, all other tier types are denied. -/
def CachedEntitlement.allowed (e : CachedEntitlement) (now : Int) : Bool :=
  match e.tier_type with
  | 0 => (match e.expires_at with | some exp => now < exp | none => false)
  | 2 => (match e.quota with | some q => 0 < q | none => false)
         && (match e.expires_at with | some exp => now < exp | none => false)
  | 3 => (match e.units with | some u => 0 < u | none => false)
  | _ => false

/-- ValidatorError from src/sidecar/validator.rs. -/
inductive ValidatorError where
  | Unreachable (msg : String)
  | ApiError (code : Nat)
  | ParseError (msg : String)
deriving Repr, DecidableEq

/-- ValidatorError::is_transient from src/sidecar/validator.rs; defined in
the source but never consulted by the proxy handler. -/
def ValidatorError.is_transient : ValidatorError → Bool
  | .Unreachable _ => true
  | .ApiError code => 500 ≤ code ∧ code ≤ 599
  | .ParseError _ => false

/-- ValidateResponse from src/sidecar/validator.rs, the deserialized 200
body of POST /validate. -/
structure ValidateResponse where
  entitlement_id : String
  tier : String
  quota : Option Nat
  units : Option Nat
  tier_type : Nat
  expires_at : Option Int
deriving Repr, DecidableEq

/-- to_cached from src/sidecar/validator.rs: project a validator response
into the cacheable form; cached_at is left None. -/
def to_cached (resp : ValidateResponse) : CachedEntitlement :=
  { id := resp.entitlement_id
    tier := resp.tier
    quota := resp.quota
    units := resp.units
    tier_type := resp.tier_type
    expires_at := resp.expires_at
    cached_at := none }

/-- LUA_ATOMIC_CHECK_AND_DECREMENT from src/utils/constants.rs, as a pure
function of the current counter key value: returns the script result and
the counter value after the call. Tier 0 returns 0 without touching the
counter; tiers 2 and 3 return -2 when the key is absent, -1 when the value
is below the cost, and otherwise the DECRBY result; any other tier returns
-3. -/
def luaAtomicCheckAndDecrement (counter : Option Int) (cost : Int)
    (tier_type : Int) : Int × Option Int :=
  if tier_type = 0 then
    (0, counter)
  else if tier_type = 2 ∨ tier_type = 3 then
    match counter with
    | none => (-2, none)
    | some cur =>
        if cur < cost then (-1, some cur)
        else (cur - cost, some (cur - cost))
  else
    (-3, counter)

/-- AuthMode from src/sidecar/middleware.rs. -/
inductive AuthMode where
  | none
  | apiKey
  | bearerToken
deriving Repr, DecidableEq

/-- SidecarConfig from src/sidecar/config.rs, restricted to the fields the
embedded handlers read. The configurable header names are abstracted away:
the request model below carries the address, cost and service header values
positionally. -/
structure SidecarConfig where
  fail_open : Bool
  cache_ttl_ms : Nat
  auth_mode : AuthMode
  auth_secret : Option String
deriving Repr, DecidableEq

/-- The Redis state for one fixed pair of user address and service id: the
value and TTL of the entitlement key and of the quota counter key. -/
structure CacheState where
  entitlement : Option CachedEntitlement
  entTtl : Option Nat
  counter : Option Int
  counterTtl : Option Nat
deriving Repr, DecidableEq

/-- ProxyState::set_entitlement from src/sidecar/proxy.rs: pipelined SET
plus EXPIRE, overwriting unconditionally. -/
def CacheState.set_entitlement (st : CacheState) (ent : CachedEntitlement)
    (ttl_secs : Nat) : CacheState :=
  { st with entitlement := some ent, entTtl := some ttl_secs }

/-- ProxyState::set_quota from src/sidecar/proxy.rs: SET with NX and EX, so
the counter is written only when the key is absent. -/
def CacheState.set_quota (st : CacheState) (remaining : Int)
    (ttl_secs : Nat) : CacheState :=
  if st.counter = none then
    { st with counter := some remaining, counterTtl := some ttl_secs }
  else st

/-- ProxyState::invalidate_entitlement from src/sidecar/proxy.rs: a DEL of
the entitlement key only; the quota counter key is not touched. -/
def CacheState.invalidate_entitlement (st : CacheState) : CacheState :=
  { st with entitlement := none, entTtl := none }

/-- The TTL computation appearing verbatim in the cache-miss path of
proxy_handler (src/sidecar/proxy.rs) and in the Refresh arm of
run_pubsub_listener (src/pubsub/subscriber.rs): seconds remaining to the
expiry when one is set and positive, zero when expired, and the configured
default cache_ttl_ms divided by 1000 when no expiry is set. -/
def computeTtl (expires_at : Option Int) (now : Int) (cache_ttl_ms : Nat) : Nat :=
  match expires_at with
  | some exp =>
      let remaining := numSecondsOf (exp - now)
      if remaining > 0 then remaining.toNat else 0
  | none => cache_ttl_ms / 1000

/-- An incoming sidecar request: the three enforcement headers (values of
the configured address, cost and service header names), the request path,
and the two authentication headers read by the middleware. -/
structure SReq where
  addressH : Option HVal
  costH : Option HVal
  serviceH : Option HVal
  path : String
  apiKeyH : Option HVal
  authH : Option HVal
deriving Repr, DecidableEq

/-- Observable outcome of one request through the sidecar: response status
and machine-stable error tag of the JSON error body (None for an upstream
pass-through), the cache state afterwards, whether the upstream send was
attempted, whether the async record_usage task was spawned, and the
increments applied to each metrics counter. -/
structure PipelineResult where
  status : Nat
  error : Option String
  cache : CacheState
  upstreamCalled : Bool
  usageRecorded : Bool
  allowedInc : Nat
  deniedInc : Nat
  hitInc : Nat
  missInc : Nat
  validatorErrInc : Nat
deriving Repr, DecidableEq

/-- Step 6 of proxy_handler (src/sidecar/proxy.rs lines 335 to 388):
requests_allowed is incremented, then the upstream request is sent. A send
failure produces deny_response 502 upstream_error with no denied increment;
on success the usage-record task is spawned and the upstream response is
passed through. -/
def forwardUpstream (st : CacheState) (hit miss verr : Nat)
    (ures : Option Nat) : PipelineResult :=
  match ures with
  | none =>
      { status := 502, error := some "upstream_error", cache := st,
        upstreamCalled := true, usageRecorded := false,
        allowedInc := 1, deniedInc := 0,
        hitInc := hit, missInc := miss, validatorErrInc := verr }
  | some code =>
      { status := code, error := none, cache := st,
        upstreamCalled := true, usageRecorded := true,
        allowedInc := 1, deniedInc := 0,
        hitInc := hit, missInc := miss, validatorErrInc := verr }

/-- Steps after the cache probe of proxy_handler (src/sidecar/proxy.rs
lines 272 to 335): deny 403 when the entitlement is not allowed, otherwise
run the atomic script when tier_type is nonzero and a quota or units field
is present, mapping the script results -1, -2, -3 to 429, 503 and 400 with
one denied increment each, and continuing to the upstream forward for any
other result. -/
def afterProbe (cost : Nat) (hasEnt : Bool) (ent : CachedEntitlement)
    (st : CacheState) (hit miss verr : Nat) (ures : Option Nat) :
    PipelineResult :=
  if hasEnt = false then
    { status := 403, error := some "access_denied, no entitlement",
      cache := st, upstreamCalled := false, usageRecorded := false,
      allowedInc := 0, deniedInc := 1,
      hitInc := hit, missInc := miss, validatorErrInc := verr }
  else
    if ent.tier_type ≠ 0 ∧ (ent.quota.isSome ∨ ent.units.isSome) then
      let res := luaAtomicCheckAndDecrement st.counter (castI64 cost)
        (ent.tier_type : Int)
      let st2 : CacheState := { st with counter := res.2 }
      if res.1 = -1 then
        { status := 429, error := some "quota_exceeded", cache := st2,
          upstreamCalled := false, usageRecorded := false,
          allowedInc := 0, deniedInc := 1,
          hitInc := hit, missInc := miss, validatorErrInc := verr }
      else if res.1 = -2 then
        { status := 503, error := some "quota_not_ready", cache := st2,
          upstreamCalled := false, usageRecorded := false,
          allowedInc := 0, deniedInc := 1,
          hitInc := hit, missInc := miss, validatorErrInc := verr }
      else if res.1 = -3 then
        { status := 400, error := some "unknown_tier_type", cache := st2,
          upstreamCalled := false, usageRecorded := false,
          allowedInc := 0, deniedInc := 1,
          hitInc := hit, missInc := miss, validatorErrInc := verr }
      else
        forwardUpstream st2 hit miss verr ures
    else
      forwardUpstream st hit miss verr ures

/-- proxy_handler from src/sidecar/proxy.rs. Inputs beyond the request: the
cache state for the (user, service) pair named by the headers, the outcome
the validator client would produce on a cache miss, the upstream outcome
(None for a connection failure, otherwise the upstream status code), and
the current time. Header extraction follows the source order address, cost,
service, with the exact statuses, error tags and metric increments of each
early return. -/
def proxyHandler (cfg : SidecarConfig) (req : SReq) (st : CacheState)
    (vres : Except ValidatorError ValidateResponse) (ures : Option Nat)
    (now : Int) : PipelineResult :=
  match req.addressH with
  | none =>
      { status := 401, error := some "missing_sui_address", cache := st,
        upstreamCalled := false, usageRecorded := false,
        allowedInc := 0, deniedInc := 1,
        hitInc := 0, missInc := 0, validatorErrInc := 0 }
  | some HVal.invalid =>
      { status := 400, error := some "invalid_address_header", cache := st,
        upstreamCalled := false, usageRecorded := false,
        allowedInc := 0, deniedInc := 0,
        hitInc := 0, missInc := 0, validatorErrInc := 0 }
  | some (HVal.valid _user) =>
    match (match req.costH with
           | none => some 1
           | some HVal.invalid => none
           | some (HVal.valid cs) => parseU64 cs) with
    | none =>
        { status := 400, error := some "invalid_cost_header", cache := st,
          upstreamCalled := false, usageRecorded := false,
          allowedInc := 0, deniedInc := 0,
          hitInc := 0, missInc := 0, validatorErrInc := 0 }
    | some cost =>
      match req.serviceH with
      | none =>
          { status := 400, error := some "missing_service_id", cache := st,
            upstreamCalled := false, usageRecorded := false,
            allowedInc := 0, deniedInc := 1,
            hitInc := 0, missInc := 0, validatorErrInc := 0 }
      | some HVal.invalid =>
          { status := 400, error := some "invalid_service_header", cache := st,
            upstreamCalled := false, usageRecorded := false,
            allowedInc := 0, deniedInc := 0,
            hitInc := 0, missInc := 0, validatorErrInc := 0 }
      | some (HVal.valid _service) =>
        match st.entitlement with
        | some cached =>
            afterProbe cost (cached.allowed now) cached st 1 0 0 ures
        | none =>
            match vres with
            | Except.error _ =>
                if cfg.fail_open then
                  { status := 200,
                    error := some "validator_error, failing_open",
                    cache := st, upstreamCalled := false,
                    usageRecorded := false,
                    allowedInc := 0, deniedInc := 0,
                    hitInc := 0, missInc := 1, validatorErrInc := 1 }
                else
                  { status := 503, error := some "validator_error",
                    cache := st, upstreamCalled := false,
                    usageRecorded := false,
                    allowedInc := 0, deniedInc := 0,
                    hitInc := 0, missInc := 1, validatorErrInc := 1 }
            | Except.ok resp =>
                let cached := to_cached resp
                let allowed := cached.allowed now
                let ttl := computeTtl cached.expires_at now cfg.cache_ttl_ms
                let st1 := st.set_entitlement cached ttl
                let st2 :=
                  if allowed then
                    match cached.tier_type with
                    | 0 => st1
                    | 2 =>
                        match cached.quota with
                        | some q => st1.set_quota (castI64 q) ttl
                        | none => st1
                    | 3 =>
                        match cached.units with
                        | some u => st1.set_quota (castI64 u) ttl
                        | none => st1
                    | _ => st1
                  else st1
                afterProbe cost allowed cached st2 0 1 0 ures

/-- TierEntitlement from src/pubsub/types.rs: the inner payload of an
entitlement update event. Expiry timestamps in integer milliseconds. -/
inductive TierEntitlement where
  | Subscription (expires_at : Nat)
  | Quota (quota_limit : Nat) (expires_at : Nat)
  | UsageBased (units : Nat)
deriving Repr, DecidableEq

/-- TierEntitlement::expires_at from src/pubsub/types.rs. -/
def TierEntitlement.expires_at : TierEntitlement → Option Nat
  | .Subscription e => some e
  | .Quota _ e => some e
  | .UsageBased _ => none

/-- TierEntitlement::quota from src/pubsub/types.rs. -/
def TierEntitlement.quota : TierEntitlement → Option Nat
  | .Subscription _ => none
  | .Quota q _ => some q
  | .UsageBased _ => none

/-- TierEntitlement::units from src/pubsub/types.rs. -/
def TierEntitlement.units : TierEntitlement → Option Nat
  | .Subscription _ => none
  | .Quota _ _ => none
  | .UsageBased u => some u

/-- EntitlementUpdateEvent from src/pubsub/types.rs. -/
structure EntitlementUpdateEvent where
  ent_id : String
  tier_id : String
  tier_type : Nat
  inner : TierEntitlement
deriving Repr, DecidableEq

/-- EntitlementUpdateEvent::to_cached_entitlement from src/pubsub/types.rs.
Tier type 0 carries only the expiry, tier type 1 copies the inner quota,
tier type 2 copies the inner units with no expiry, and every other tier
type is rejected with an error. The chrono from_timestamp_millis range
failure is not modelled: the millisecond value is taken as is, through the
u64 to i64 cast the source performs. The current time stands in for
Utc::now in the cached_at field. -/
def EntitlementUpdateEvent.to_cached_entitlement (e : EntitlementUpdateEvent)
    (now : Int) : Except String CachedEntitlement :=
  match e.tier_type with
  | 0 => .ok
      { id := e.ent_id, tier := e.tier_id, quota := none, units := none,
        tier_type := e.tier_type,
        expires_at := e.inner.expires_at.map (fun ts => castI64 ts),
        cached_at := some now }
  | 1 => .ok
      { id := e.ent_id, tier := e.tier_id, quota := e.inner.quota,
        units := none, tier_type := e.tier_type,
        expires_at := e.inner.expires_at.map (fun ts => castI64 ts),
        cached_at := some now }
  | 2 => .ok
      { id := e.ent_id, tier := e.tier_id, quota := none,
        units := e.inner.units, tier_type := e.tier_type,
        expires_at := none, cached_at := some now }
  | _ => .error "invalid tier type"

/-- PubSubAction from src/pubsub/types.rs. -/
inductive PubSubAction where
  | Invalidate
  | Refresh (e : EntitlementUpdateEvent)
deriving Repr, DecidableEq

/-- One message step of run_pubsub_listener from src/pubsub/subscriber.rs.
Invalidate calls invalidate_entitlement, which deletes the entitlement key
only. Refresh calls invalidate_entitlement, converts the update, and on
success writes the entitlement key with the computed TTL and, when the
tier type of the event is nonzero and the inner payload carries a quota,
seeds the counter with set_quota (SET NX EX). A conversion failure is
propagated out of the listener; the returned Option String is that error.
The trailing read-back of the entitlement key only logs and is omitted. -/
def runPubSubEvent (cfg : SidecarConfig) (st : CacheState) (now : Int) :
    PubSubAction → CacheState × Option String
  | .Invalidate => (st.invalidate_entitlement, none)
  | .Refresh tier =>
      let st1 := st.invalidate_entitlement
      match tier.to_cached_entitlement now with
      | .error e => (st1, some e)
      | .ok ent =>
          let ttl := computeTtl ent.expires_at now cfg.cache_ttl_ms
          let st2 := st1.set_entitlement ent ttl
          let st3 :=
            if tier.tier_type ≠ 0 then
              match tier.inner.quota with
              | some q => st2.set_quota (castI64 q) ttl
              | none => st2
            else st2
          (st3, none)

/-- Rust str::strip_prefix with the literal prefix string used in
src/sidecar/middleware.rs, applied to the Authorization header. -/
def stripBearer (s : String) : Option String :=
  match s.data with
  | 'B' :: 'e' :: 'a' :: 'r' :: 'e' :: 'r' :: ' ' :: rest =>
      some (String.mk rest)
  | _ => none

/-- Outcome of the authentication middleware: pass the request on, deny
with a status and error tag, or fail because auth_secret is missing. -/
inductive AuthDecision where
  | proceed
  | deny (status : Nat) (tag : String)
  | configErr
deriving Repr, DecidableEq

/-- auth_middleware from src/sidecar/middleware.rs: mode None passes every
request; ApiKey compares the X-Api-Key header (empty string when absent or
unreadable) against auth_secret; BearerToken compares the Authorization
header after stripping the Bearer prefix. A mismatch is a 401 deny. -/
def auth_middleware (cfg : SidecarConfig) (apiKeyH authH : Option HVal) :
    AuthDecision :=
  match cfg.auth_mode with
  | .none => .proceed
  | .apiKey =>
      match cfg.auth_secret with
      | Option.none => .configErr
      | some expected =>
          let provided := ((apiKeyH.bind HVal.toStr).getD "")
          if provided = expected then .proceed
          else .deny 401 "invalid_api_key"
  | .bearerToken =>
      match cfg.auth_secret with
      | Option.none => .configErr
      | some expected =>
          let provided :=
            (((authH.bind HVal.toStr).bind stripBearer).getD "")
          if provided = expected then .proceed
          else .deny 401 "invalid_bearer_token"

/-- Router wiring from src/bin/sidecar.rs: the routes /metrics and /healthz
are registered, then proxy_handler is installed as the fallback, then the
auth middleware is attached with route_layer. Per axum semantics a
route_layer middleware runs only when the request matches a registered
route, so it wraps /metrics and /healthz but never the fallback; requests
on any other path reach proxy_handler directly. The /metrics and /healthz
handlers respond 200 and do not touch the enforcement state. -/
def routerDispatch (cfg : SidecarConfig) (req : SReq) (st : CacheState)
    (vres : Except ValidatorError ValidateResponse) (ures : Option Nat)
    (now : Int) : PipelineResult :=
  if req.path = "/metrics" ∨ req.path = "/healthz" then
    match auth_middleware cfg req.apiKeyH req.authH with
    | .proceed =>
        { status := 200, error := none, cache := st,
          upstreamCalled := false, usageRecorded := false,
          allowedInc := 0, deniedInc := 0,
          hitInc := 0, missInc := 0, validatorErrInc := 0 }
    | .deny code tag =>
        { status := code, error := some tag, cache := st,
          upstreamCalled := false, usageRecorded := false,
          allowedInc := 0, deniedInc := 0,
          hitInc := 0, missInc := 0, validatorErrInc := 0 }
    | .configErr =>
        { status := 500, error := some "auth_secret missing", cache := st,
          upstreamCalled := false, usageRecorded := false,
          allowedInc := 0, deniedInc := 0,
          hitInc := 0, missInc := 0, validatorErrInc := 0 }
  else
    proxyHandler cfg req st vres ures now

/-! Concrete fixtures used by the counterexamples and witnesses. -/

/-- A configuration with default cache TTL, fail-closed, no client auth. -/
def cfgEx : SidecarConfig :=
  { fail_open := false, cache_ttl_ms := 15000, auth_mode := .none,
    auth_secret := none }

/-- The fail-open variant of cfgEx. -/
def cfgFO : SidecarConfig :=
  { cfgEx with fail_open := true }

/-- An ApiKey-mode configuration with a set secret. -/
def cfgAuth : SidecarConfig :=
  { fail_open := false, cache_ttl_ms := 15000, auth_mode := .apiKey,
    auth_secret := some "sekret" }

/-- An empty cache: neither key present. -/
def stEmpty : CacheState :=
  { entitlement := none, entTtl := none, counter := none, counterTtl := none }

/-- A stale cached entitlement used in the pubsub fixtures. -/
def entOld : CachedEntitlement :=
  { id := "old-ent", tier := "old-tier", quota := some 9, units := none,
    tier_type := 2, expires_at := some 999999, cached_at := some 0 }

/-- A cache state holding entOld and a counter of 7. -/
def stEx : CacheState :=
  { entitlement := some entOld, entTtl := some 50, counter := some 7,
    counterTtl := some 50 }

/-- stEx without the counter key. -/
def stNone : CacheState :=
  { stEx with counter := none, counterTtl := none }

/-- An expired tier-0 entitlement: expiry at time 5, probed at time 10. -/
def entExpired : CachedEntitlement :=
  { id := "e1", tier := "t1", quota := none, units := none,
    tier_type := 0, expires_at := some 5, cached_at := none }

/-- A cache state holding entExpired. -/
def stHit : CacheState :=
  { entitlement := some entExpired, entTtl := some 100, counter := none,
    counterTtl := none }

/-- A validator outcome used where the cache-hit path makes it irrelevant. -/
def vresArb : Except ValidatorError ValidateResponse :=
  .error (.Unreachable "connection refused")

/-- A request bearing valid address and service headers and no others. -/
def reqStd : SReq :=
  { addressH := some (.valid "0xA"), costH := none,
    serviceH := some (.valid "svc1"), path := "/foo",
    apiKeyH := none, authH := none }

/-- A usage-based update event carrying tier type 2 and 5 units, the shape
TierEntitlement::from_u8 produces for tier value 2. -/
def evU2 : EntitlementUpdateEvent :=
  { ent_id := "new-ent", tier_id := "new-tier", tier_type := 2,
    inner := .UsageBased 5 }

/-- An update event carrying tier type 3, which to_cached_entitlement
rejects. -/
def evT3 : EntitlementUpdateEvent :=
  { ent_id := "new-ent3", tier_id := "new-tier3", tier_type := 3,
    inner := .UsageBased 5 }

/-! Claim theorems. -/

/-- C1 counterexample: the claim says the atomic check-and-decrement script
never returns 0 when tier_type is 2 or 3, but with the counter at 5 and
cost 5 the tier-2 call decrements to 0 and returns 0 (the DECRBY result). -/
theorem C1_lua_returns_zero_for_tier2_cex :
    (luaAtomicCheckAndDecrement (some 5) 5 2).1 = 0 := by decide

/-- C1 amended: for every counter value and cost, the script returns 0 (and
never a positive value) when tier_type is 0, and for tier_type 2 or 3 it
returns 0 exactly when the counter key holds a value equal to the cost, in
which case the decrement succeeded and exhausted the counter. -/
theorem C1_lua_zero_characterization (counter : Option Int) (cost : Int)
    (tier : Int) (h : tier = 2 ∨ tier = 3) :
    (luaAtomicCheckAndDecrement counter cost 0).1 = 0 ∧
    ((luaAtomicCheckAndDecrement counter cost tier).1 = 0 ↔
      counter = some cost) := by
  constructor
  · rfl
  · have htne : tier ≠ 0 := by rcases h with h | h <;> omega
    unfold luaAtomicCheckAndDecrement
    rw [if_neg htne, if_pos h]
    rcases counter with _ | cur
    · simp
    · dsimp only
      by_cases hlt : cur < cost
      · rw [if_pos hlt]
        simp only [Option.some.injEq]
        constructor <;> intro hc <;> omega
      · rw [if_neg hlt]
        simp only [Option.some.injEq]
        constructor <;> intro hc <;> omega

/-- C1 witness: the amended characterization evaluated at counter 5, cost 5,
tier 2. -/
theorem C1_lua_zero_characterization_witness :
    (luaAtomicCheckAndDecrement (some 5) 5 0).1 = 0 ∧
    ((luaAtomicCheckAndDecrement (some 5) 5 2).1 = 0 ↔
      (some 5 : Option Int) = some 5) :=
  C1_lua_zero_characterization (some 5) 5 2 (Or.inl rfl)

/-- C2 counterexample: the claim says an Invalidate directive deletes both
the entitlement key and the quota key, but on a cache holding a counter of
7 the subscriber deletes only the entitlement key and the counter survives. -/
theorem C2_invalidate_leaves_counter_cex :
    (runPubSubEvent cfgEx stEx 0 .Invalidate).1.entitlement = none ∧
    (runPubSubEvent cfgEx stEx 0 .Invalidate).1.counter = some 7 := by
  constructor <;> rfl

/-- Helper: a Refresh never overwrites or deletes an existing counter key,
because the only counter write in the subscriber uses SET NX and the delete
phase removes only the entitlement key. -/
theorem refresh_counter_stable (cfg : SidecarConfig) (st : CacheState)
    (now : Int) (e : EntitlementUpdateEvent) (v : Int)
    (hv : st.counter = some v) :
    (runPubSubEvent cfg st now (.Refresh e)).1.counter = some v := by
  unfold runPubSubEvent
  dsimp only
  rcases hconv : e.to_cached_entitlement now with s | ent
  · simpa [CacheState.invalidate_entitlement] using hv
  · dsimp only
    by_cases ht : e.tier_type ≠ 0
    · rw [if_pos ht]
      rcases hq : e.inner.quota with _ | q
      · simpa [CacheState.set_entitlement,
          CacheState.invalidate_entitlement] using hv
      · simp only [CacheState.set_quota, CacheState.set_entitlement,
          CacheState.invalidate_entitlement, hv]
        simp
    · rw [if_neg ht]
      simpa [CacheState.set_entitlement,
        CacheState.invalidate_entitlement] using hv

/-- C2 amended: an Invalidate directive deletes only the entitlement key,
leaving the rest of the cache state (in particular the quota counter key)
untouched, and neither an Invalidate nor the delete phase of a Refresh ever
deletes an existing counter key. -/
theorem C2_invalidate_deletes_only_entitlement (cfg : SidecarConfig)
    (st : CacheState) (now : Int) :
    (runPubSubEvent cfg st now .Invalidate).1 =
      { st with entitlement := none, entTtl := none } ∧
    (runPubSubEvent cfg st now .Invalidate).2 = none ∧
    ∀ a : PubSubAction,
      (runPubSubEvent cfg st now a).1.counter = none → st.counter = none := by
  refine ⟨rfl, rfl, ?_⟩
  intro a
  cases a with
  | Invalidate => intro h; exact h
  | Refresh e =>
      intro h
      rcases hc : st.counter with _ | v
      · rfl
      · have := refresh_counter_stable cfg st now e v hc
        rw [this] at h
        exact absurd h (by simp)

/-- C2 witness: the amended statement applied at the concrete fixtures, with
the implication discharged on a cache that indeed has no counter key. -/
theorem C2_invalidate_deletes_only_entitlement_witness :
    (runPubSubEvent cfgEx stNone 0 .Invalidate).1 =
      { stNone with entitlement := none, entTtl := none } ∧
    stNone.counter = none :=
  ⟨(C2_invalidate_deletes_only_entitlement cfgEx stNone 0).1,
   (C2_invalidate_deletes_only_entitlement cfgEx stNone 0).2.2
     .Invalidate rfl⟩

/-- C3 counterexample: the claim says that after a Refresh with tier 2 the
counter key equals the new units value with a fresh TTL and no stale value
survives, but processing the tier-2 update evU2 (5 units) over a cache with
a stale counter of 7 completes without error and leaves the counter at 7:
the subscriber never deletes the counter key and seeds it only through
SET NX from the inner quota field, which a tier-2 (usage-based) update does
not carry. -/
theorem C3_refresh_stale_counter_survives_cex :
    (runPubSubEvent cfgEx stEx 0 (.Refresh evU2)).2 = none ∧
    (runPubSubEvent cfgEx stEx 0 (.Refresh evU2)).1.counter = some 7 ∧
    (runPubSubEvent cfgEx stEx 0 (.Refresh evU2)).1.counter ≠ some 5 := by
  refine ⟨rfl, rfl, by decide⟩

/-- C3 amended: a pre-existing counter value always survives a Refresh
unchanged; a Refresh whose update has tier type 2 and a usage-based inner
payload performs no counter write at all (the seeding reads the inner quota
field, which is absent); and a Refresh whose update has tier type 3 or
higher fails conversion, leaving only the entitlement-key deletion applied
and reporting the invalid tier type error. -/
theorem C3_refresh_counter_behavior (cfg : SidecarConfig) (st : CacheState)
    (now : Int) (e : EntitlementUpdateEvent) :
    (∀ v : Int, st.counter = some v →
      (runPubSubEvent cfg st now (.Refresh e)).1.counter = some v) ∧
    (e.tier_type = 2 → e.inner.quota = none →
      (runPubSubEvent cfg st now (.Refresh e)).1.counter = st.counter) ∧
    (3 ≤ e.tier_type →
      runPubSubEvent cfg st now (.Refresh e) =
        (st.invalidate_entitlement, some "invalid tier type")) := by
  refine ⟨fun v hv => refresh_counter_stable cfg st now e v hv, ?_, ?_⟩
  · intro ht hq
    unfold runPubSubEvent
    dsimp only
    rcases hconv : e.to_cached_entitlement now with s | ent
    · rfl
    · dsimp only
      rw [if_pos (by omega : e.tier_type ≠ 0), hq]
      rfl
  · intro ht
    obtain ⟨n, hn⟩ : ∃ n, e.tier_type = n + 3 := ⟨e.tier_type - 3, by omega⟩
    unfold runPubSubEvent EntitlementUpdateEvent.to_cached_entitlement
    dsimp only
    rw [hn]
    rfl

/-- C3 witness: the amended statement applied to the concrete tier-2
usage-based update evU2 over the stale-counter cache stEx, and to the
tier-3 update evT3. -/
theorem C3_refresh_counter_behavior_witness :
    (runPubSubEvent cfgEx stEx 0 (.Refresh evU2)).1.counter = some 7 ∧
    runPubSubEvent cfgEx stEx 0 (.Refresh evT3) =
      (stEx.invalidate_entitlement, some "invalid tier type") :=
  ⟨(C3_refresh_counter_behavior cfgEx stEx 0 evU2).1 7 rfl,
   (C3_refresh_counter_behavior cfgEx stEx 0 evT3).2.2 (by decide)⟩

/-- C4: on a cache miss with the validator unreachable and fail_open set,
the handler is supposed to allow the request through to the upstream proxy
step, but the source replies 200 with the JSON error body
validator_error, failing_open and never contacts the upstream: the
response is built by deny_response, the upstream send is not attempted,
no usage is recorded and the cache is untouched. This evaluates the code
at the failing input and exhibits the divergence. -/
theorem C4_fail_open_returns_200_without_upstream :
    (proxyHandler cfgFO reqStd stEmpty vresArb (some 200) 0).status = 200 ∧
    (proxyHandler cfgFO reqStd stEmpty vresArb (some 200) 0).error =
      some "validator_error, failing_open" ∧
    (proxyHandler cfgFO reqStd stEmpty vresArb (some 200) 0).upstreamCalled
      = false ∧
    (proxyHandler cfgFO reqStd stEmpty vresArb (some 200) 0).usageRecorded
      = false ∧
    (proxyHandler cfgFO reqStd stEmpty vresArb (some 200) 0).cache =
      stEmpty := by
  refine ⟨rfl, rfl, rfl, rfl, rfl⟩

/-- C5 counterexample: the claim says a validator 403 response makes the
sidecar deny with 403, but the validator client turns every non-2xx status
into an error value and the handler then follows the fail-open or
fail-closed policy: fail-closed, a validator 403 produces a 503
validator_error response, not a 403. -/
theorem C5_validator_403_gives_503_cex :
    (proxyHandler cfgEx reqStd stEmpty (.error (.ApiError 403))
      (some 200) 0).status = 503 ∧
    (proxyHandler cfgEx reqStd stEmpty (.error (.ApiError 403))
      (some 200) 0).status ≠ 403 ∧
    (proxyHandler cfgEx reqStd stEmpty (.error (.ApiError 403))
      (some 200) 0).error = some "validator_error" := by
  refine ⟨rfl, by decide, rfl⟩

/-- C5 amended: on a cache miss every validator failure, a 403 response
included, is handled uniformly: when fail_open is false the sidecar denies
with 503 validator_error, and when fail_open is true it replies 200 with
the failing-open error body; in both cases the upstream is not contacted
and the cache is unchanged. A 403 deny by the sidecar arises only from an
entitlement whose allowed check fails, not from a validator status. -/
theorem C5_validator_error_uniform_handling (cfg : SidecarConfig)
    (st : CacheState) (ures : Option Nat) (now : Int) (a s path : String)
    (k au : Option HVal) (e : ValidatorError)
    (hmiss : st.entitlement = none) :
    (proxyHandler cfg ⟨some (.valid a), none, some (.valid s), path, k, au⟩
        st (.error e) ures now).status =
      (if cfg.fail_open then 200 else 503) ∧
    (proxyHandler cfg ⟨some (.valid a), none, some (.valid s), path, k, au⟩
        st (.error e) ures now).error =
      some (if cfg.fail_open then "validator_error, failing_open"
            else "validator_error") ∧
    (proxyHandler cfg ⟨some (.valid a), none, some (.valid s), path, k, au⟩
        st (.error e) ures now).upstreamCalled = false ∧
    (proxyHandler cfg ⟨some (.valid a), none, some (.valid s), path, k, au⟩
        st (.error e) ures now).cache = st ∧
    (proxyHandler cfg ⟨some (.valid a), none, some (.valid s), path, k, au⟩
        st (.error e) ures now).validatorErrInc = 1 := by
  unfold proxyHandler
  dsimp only
  rw [hmiss]
  by_cases hfo : cfg.fail_open = true
  · rw [if_pos hfo, hfo]
    exact ⟨rfl, rfl, rfl, rfl, rfl⟩
  · rw [if_neg hfo]
    have : cfg.fail_open = false := by
      revert hfo; cases cfg.fail_open <;> simp
    rw [this]
    exact ⟨rfl, rfl, rfl, rfl, rfl⟩

/-- C5 witness: the amended statement evaluated at a validator 403 under
the fail-closed configuration on an empty cache. -/
theorem C5_validator_error_uniform_handling_witness :
    (proxyHandler cfgEx ⟨some (.valid "0xA"), none, some (.valid "svc1"),
        "/foo", none, none⟩ stEmpty (.error (.ApiError 403))
        (some 200) 0).status = (if cfgEx.fail_open then 200 else 503) ∧
    (proxyHandler cfgEx ⟨some (.valid "0xA"), none, some (.valid "svc1"),
        "/foo", none, none⟩ stEmpty (.error (.ApiError 403))
        (some 200) 0).error =
      some (if cfgEx.fail_open then "validator_error, failing_open"
            else "validator_error") ∧
    (proxyHandler cfgEx ⟨some (.valid "0xA"), none, some (.valid "svc1"),
        "/foo", none, none⟩ stEmpty (.error (.ApiError 403))
        (some 200) 0).upstreamCalled = false ∧
    (proxyHandler cfgEx ⟨some (.valid "0xA"), none, some (.valid "svc1"),
        "/foo", none, none⟩ stEmpty (.error (.ApiError 403))
        (some 200) 0).cache = stEmpty ∧
    (proxyHandler cfgEx ⟨some (.valid "0xA"), none, some (.valid "svc1"),
        "/foo", none, none⟩ stEmpty (.error (.ApiError 403))
        (some 200) 0).validatorErrInc = 1 :=
  C5_validator_error_uniform_handling cfgEx stEmpty (some 200) 0 "0xA"
    "svc1" "/foo" none none (.ApiError 403) rfl

/-- C6: with auth_mode ApiKey the middleware itself would deny the keyless
request with 401 invalid_api_key, but the router attaches it with
route_layer after registering proxy_handler as the fallback, and a
route_layer middleware never runs for the fallback: a request to /foo with
no X-Api-Key header reaches the enforcement pipeline directly and gets its
enforcement verdict (here 403 for an expired cached entitlement) instead of
the 401 the claim requires. This evaluates the code at the failing input. -/
theorem C6_fallback_bypasses_auth_middleware :
    auth_middleware cfgAuth reqStd.apiKeyH reqStd.authH =
      .deny 401 "invalid_api_key" ∧
    (routerDispatch cfgAuth reqStd stHit vresArb (some 200) 10).status
      = 403 ∧
    (routerDispatch cfgAuth reqStd stHit vresArb (some 200) 10).error
      = some "access_denied, no entitlement" := by
  refine ⟨by decide, ?_, ?_⟩ <;>
    · show _ = _
      decide

/-- C7 counterexample: the claim says a present but non-ASCII address
header is rejected with 401, but the source replies 400 with the
invalid_address_header tag (and without the denied-metric increment that
the missing-header branch performs). -/
theorem C7_nonascii_address_gives_400_cex :
    (proxyHandler cfgEx ⟨some .invalid, none, none, "/foo", none, none⟩
      stEmpty vresArb none 0).status = 400 ∧
    (proxyHandler cfgEx ⟨some .invalid, none, none, "/foo", none, none⟩
      stEmpty vresArb none 0).error = some "invalid_address_header" := by
  exact ⟨rfl, rfl⟩

/-- C7 amended: a missing address header is rejected with 401
missing_sui_address, a present but non-ASCII address header with 400
invalid_address_header, a missing service header with 400
missing_service_id, and a non-ASCII service header with 400
invalid_service_header; each response carries the error tag and status of
its JSON body. -/
theorem C7_header_error_statuses (cfg : SidecarConfig) (st : CacheState)
    (vres : Except ValidatorError ValidateResponse) (ures : Option Nat)
    (now : Int) (ch sh : Option HVal) (a path : String)
    (k au : Option HVal) :
    ((proxyHandler cfg ⟨none, ch, sh, path, k, au⟩ st vres ures now).status
        = 401 ∧
     (proxyHandler cfg ⟨none, ch, sh, path, k, au⟩ st vres ures now).error
        = some "missing_sui_address") ∧
    ((proxyHandler cfg ⟨some .invalid, ch, sh, path, k, au⟩ st vres ures
        now).status = 400 ∧
     (proxyHandler cfg ⟨some .invalid, ch, sh, path, k, au⟩ st vres ures
        now).error = some "invalid_address_header") ∧
    ((proxyHandler cfg ⟨some (.valid a), none, none, path, k, au⟩ st vres
        ures now).status = 400 ∧
     (proxyHandler cfg ⟨some (.valid a), none, none, path, k, au⟩ st vres
        ures now).error = some "missing_service_id") ∧
    ((proxyHandler cfg ⟨some (.valid a), none, some .invalid, path, k, au⟩
        st vres ures now).status = 400 ∧
     (proxyHandler cfg ⟨some (.valid a), none, some .invalid, path, k, au⟩
        st vres ures now).error = some "invalid_service_header") := by
  exact ⟨⟨rfl, rfl⟩, ⟨rfl, rfl⟩, ⟨rfl, rfl⟩, ⟨rfl, rfl⟩⟩

/-- Helper: set_quota never changes the entitlement TTL. -/
theorem CacheState.set_quota_entTtl (st : CacheState) (v : Int) (ttl : Nat) :
    (st.set_quota v ttl).entTtl = st.entTtl := by
  unfold CacheState.set_quota
  split <;> rfl

/-- Helper: the post-probe steps never change the entitlement key TTL; only
the counter key is touched by the atomic script. -/
theorem afterProbe_cache_entTtl (cost : Nat) (hasEnt : Bool)
    (ent : CachedEntitlement) (st : CacheState) (hit miss verr : Nat)
    (ures : Option Nat) :
    (afterProbe cost hasEnt ent st hit miss verr ures).cache.entTtl
      = st.entTtl := by
  unfold afterProbe forwardUpstream
  dsimp only
  split
  · rfl
  · split
    · split
      · rfl
      · split
        · rfl
        · split
          · rfl
          · rcases ures with _ | c <;> rfl
    · rcases ures with _ | c <;> rfl

/-- A far-future validator response: tier 0 with an expiry 100000 seconds
ahead of time 0, far beyond the 15-second default TTL of cfgEx. -/
def respFar : ValidateResponse :=
  { entitlement_id := "eX", tier := "tX", quota := none, units := none,
    tier_type := 0, expires_at := some 100000000 }

/-- C8 counterexample: the claim says the entitlement key TTL is the
minimum of the remaining expiry time and the configured default, but after
a cache-miss write of respFar the TTL is the full 100000 remaining seconds,
not min 100000 15 = 15: the source never takes the minimum with the
default. -/
theorem C8_ttl_not_min_cex :
    (proxyHandler cfgEx reqStd stEmpty (.ok respFar) (some 200) 0).cache.entTtl
      = some 100000 ∧
    min 100000 (cfgEx.cache_ttl_ms / 1000) = 15 ∧ (100000 : Nat) ≠ 15 := by
  refine ⟨rfl, rfl, by decide⟩

/-- C8 amended: after an entitlement write on the cache-miss path or on a
successful Refresh, the TTL equals the computeTtl value: the remaining
seconds to expires_at floored at zero when an expiry is set (with no upper
bound from the default), and the configured default cache_ttl_ms / 1000
when no expiry is set. -/
theorem C8_ttl_formula (cfg : SidecarConfig) (st : CacheState)
    (ures : Option Nat) (now : Int) (a s path : String)
    (k au : Option HVal) (resp : ValidateResponse)
    (e : EntitlementUpdateEvent) (ent : CachedEntitlement) (exp : Int)
    (d : Nat) (hmiss : st.entitlement = none)
    (hconv : e.to_cached_entitlement now = .ok ent) :
    (proxyHandler cfg ⟨some (.valid a), none, some (.valid s), path, k, au⟩
        st (.ok resp) ures now).cache.entTtl =
      some (computeTtl resp.expires_at now cfg.cache_ttl_ms) ∧
    (runPubSubEvent cfg st now (.Refresh e)).1.entTtl =
      some (computeTtl ent.expires_at now cfg.cache_ttl_ms) ∧
    computeTtl (some exp) now d = (max 0 (numSecondsOf (exp - now))).toNat ∧
    computeTtl none now d = d / 1000 := by
  refine ⟨?_, ?_, ?_, rfl⟩
  · unfold proxyHandler
    dsimp only
    rw [hmiss]
    rw [afterProbe_cache_entTtl]
    split
    · split
      · rfl
      · split <;> (try rw [CacheState.set_quota_entTtl]) <;> rfl
      · split <;> (try rw [CacheState.set_quota_entTtl]) <;> rfl
      · rfl
    · rfl
  · unfold runPubSubEvent
    dsimp only
    rw [hconv]
    dsimp only
    split
    · split <;> (try rw [CacheState.set_quota_entTtl]) <;> rfl
    · rfl
  · unfold computeTtl
    dsimp only
    by_cases hr : numSecondsOf (exp - now) > 0
    · rw [if_pos hr, max_eq_right (le_of_lt hr)]
    · rw [if_neg hr, max_eq_left (by omega)]
      rfl

/-- C8 witness: the amended TTL formula evaluated at the far-future
response respFar over an empty cache, the tier-2 refresh event evU2, and
the concrete expiry 100000000 at time 0 with default 15000. -/
theorem C8_ttl_formula_witness :
    (proxyHandler cfgEx ⟨some (.valid "0xA"), none, some (.valid "svc1"),
        "/foo", none, none⟩ stEmpty (.ok respFar) (some 200) 0).cache.entTtl =
      some (computeTtl respFar.expires_at 0 cfgEx.cache_ttl_ms) ∧
    (runPubSubEvent cfgEx stEmpty 0 (.Refresh evU2)).1.entTtl =
      some (computeTtl (CachedEntitlement.mk "new-ent" "new-tier" none
        (some 5) 2 none (some 0)).expires_at 0 cfgEx.cache_ttl_ms) ∧
    computeTtl (some 100000000) 0 15000 =
      (max 0 (numSecondsOf (100000000 - 0))).toNat ∧
    computeTtl none 0 15000 = 15000 / 1000 :=
  C8_ttl_formula cfgEx stEmpty (some 200) 0 "0xA" "svc1" "/foo" none none
    respFar evU2 (CachedEntitlement.mk "new-ent" "new-tier" none (some 5) 2
      none (some 0)) 100000000 15000 rfl rfl

/-- Helper: the post-probe steps increment requests_denied exactly on the
results tagged access_denied, quota_exceeded, quota_not_ready and
unknown_tier_type, and requests_allowed exactly on the pass-through and
upstream_error results. -/
theorem afterProbe_metrics (cost : Nat) (hasEnt : Bool)
    (ent : CachedEntitlement) (st : CacheState) (hit miss verr : Nat)
    (ures : Option Nat) :
    ((afterProbe cost hasEnt ent st hit miss verr ures).deniedInc =
      if (afterProbe cost hasEnt ent st hit miss verr ures).error ∈
          ([some "missing_sui_address", some "missing_service_id",
            some "access_denied, no entitlement", some "quota_exceeded",
            some "quota_not_ready", some "unknown_tier_type"] :
            List (Option String)) then 1 else 0) ∧
    ((afterProbe cost hasEnt ent st hit miss verr ures).allowedInc =
      if ((afterProbe cost hasEnt ent st hit miss verr ures).error = none ∨
          (afterProbe cost hasEnt ent st hit miss verr ures).error =
            some "upstream_error") then 1 else 0) := by
  unfold afterProbe forwardUpstream
  dsimp only
  split
  · simp
  · split
    · split
      · simp
      · split
        · simp
        · split
          · simp
          · rcases ures with _ | c <;> simp
    · rcases ures with _ | c <;> simp

/-- C9 counterexample: the claim says every denial path increments
requests_denied exactly once, but the fail-closed validator-error denial
(503 validator_error) performs no denied increment at all. -/
theorem C9_validator_error_denied_not_incremented_cex :
    (proxyHandler cfgEx reqStd stEmpty (.error (.ApiError 500))
      (some 200) 0).status = 503 ∧
    (proxyHandler cfgEx reqStd stEmpty (.error (.ApiError 500))
      (some 200) 0).error = some "validator_error" ∧
    (proxyHandler cfgEx reqStd stEmpty (.error (.ApiError 500))
      (some 200) 0).deniedInc = 0 := by
  exact ⟨rfl, rfl, rfl⟩

/-- C9 amended: on every request through the enforcement pipeline,
requests_denied is incremented exactly once when the result is tagged
missing_sui_address, missing_service_id, access_denied, quota_exceeded,
quota_not_ready or unknown_tier_type, and zero times otherwise (in
particular on the invalid-header 400s, on validator_error, on the
failing-open 200 and on the upstream_error 502); requests_allowed is
incremented exactly once when the request passes the quota gate, that is
exactly on upstream pass-through responses and on the upstream_error 502
(which therefore follows an allowed increment), and zero times otherwise.
No request increments both counters. -/
theorem C9_metrics_characterization (cfg : SidecarConfig) (req : SReq)
    (st : CacheState) (vres : Except ValidatorError ValidateResponse)
    (ures : Option Nat) (now : Int) :
    ((proxyHandler cfg req st vres ures now).deniedInc =
      if (proxyHandler cfg req st vres ures now).error ∈
          ([some "missing_sui_address", some "missing_service_id",
            some "access_denied, no entitlement", some "quota_exceeded",
            some "quota_not_ready", some "unknown_tier_type"] :
            List (Option String)) then 1 else 0) ∧
    ((proxyHandler cfg req st vres ures now).allowedInc =
      if ((proxyHandler cfg req st vres ures now).error = none ∨
          (proxyHandler cfg req st vres ures now).error =
            some "upstream_error") then 1 else 0) := by
  obtain ⟨ah, ch, sh, p, kh, auh⟩ := req
  unfold proxyHandler
  dsimp only
  rcases ah with _ | ahv
  · simp
  · rcases ahv with u | _
    · dsimp only
      rcases ch with _ | chv
      · dsimp only
        rcases sh with _ | shv
        · simp
        · rcases shv with sv | _
          · dsimp only
            rcases hent : st.entitlement with _ | cached
            · rcases vres with err | resp
              · dsimp only
                cases hfo : cfg.fail_open <;> simp
              · dsimp only
                exact afterProbe_metrics _ _ _ _ _ _ _ _
            · exact afterProbe_metrics _ _ _ _ _ _ _ _
          · simp
      · rcases chv with cs | _
        · dsimp only
          rcases hp : parseU64 cs with _ | cost
          · simp
          · dsimp only
            rcases sh with _ | shv
            · simp
            · rcases shv with sv | _
              · dsimp only
                rcases hent : st.entitlement with _ | cached
                · rcases vres with err | resp
                  · dsimp only
                    cases hfo : cfg.fail_open <;> simp
                  · dsimp only
                    exact afterProbe_metrics _ _ _ _ _ _ _ _
                · exact afterProbe_metrics _ _ _ _ _ _ _ _
              · simp
        · simp
    · simp

/-- Helper: castI64 on values below 2 to the 63 is the plain coercion. -/
theorem castI64_small (n : Nat) (h : n < 2 ^ 63) : castI64 n = (n : Int) := by
  unfold castI64
  rw [if_pos h]

/-- C10: for a cache-hit request on a tier 2 or tier 3 entitlement that is
allowed, with the counter key present and holding at least the request
cost, the atomic decrement runs before the upstream forward; when the
upstream send then fails, the sidecar responds 502 upstream_error while
the counter stays decremented by the cost: the quota consumption is not
rolled back and no usage record is spawned. -/
theorem C10_upstream_failure_keeps_decrement (cfg : SidecarConfig)
    (st : CacheState) (vres : Except ValidatorError ValidateResponse)
    (now : Int) (a s path cs : String) (k au : Option HVal) (c : Nat)
    (id tier : String) (q : Nat) (exp eo : Option Int) (cur : Int)
    (hc : parseU64 cs = some c) (hcr : c < 2 ^ 63)
    (hcounter : st.counter = some cur) (hcur : (c : Int) ≤ cur)
    (hent :
      (st.entitlement = some ⟨id, tier, some q, none, 2, exp, none⟩ ∧
        0 < q ∧ ∃ x, exp = some x ∧ now < x) ∨
      (st.entitlement = some ⟨id, tier, none, some q, 3, eo, none⟩ ∧
        0 < q)) :
    (proxyHandler cfg ⟨some (.valid a), some (.valid cs),
        some (.valid s), path, k, au⟩ st vres none now).status = 502 ∧
    (proxyHandler cfg ⟨some (.valid a), some (.valid cs),
        some (.valid s), path, k, au⟩ st vres none now).error =
      some "upstream_error" ∧
    (proxyHandler cfg ⟨some (.valid a), some (.valid cs),
        some (.valid s), path, k, au⟩ st vres none now).cache.counter =
      some (cur - (c : Int)) ∧
    (proxyHandler cfg ⟨some (.valid a), some (.valid cs),
        some (.valid s), path, k, au⟩ st vres none now).upstreamCalled =
      true ∧
    (proxyHandler cfg ⟨some (.valid a), some (.valid cs),
        some (.valid s), path, k, au⟩ st vres none now).allowedInc = 1 ∧
    (proxyHandler cfg ⟨some (.valid a), some (.valid cs),
        some (.valid s), path, k, au⟩ st vres none now).usageRecorded =
      false := by
  have hscript : ∀ t : Int, t = 2 ∨ t = 3 →
      luaAtomicCheckAndDecrement st.counter (castI64 c) t
        = (cur - (c : Int), some (cur - (c : Int))) := by
    intro t ht
    rw [hcounter, castI64_small c hcr]
    unfold luaAtomicCheckAndDecrement
    rw [if_neg (by omega), if_pos ht]
    dsimp only
    rw [if_neg (by omega)]
  unfold proxyHandler
  dsimp only
  rw [hc]
  dsimp only
  rcases hent with ⟨he, hq, x, hx, hnow⟩ | ⟨he, hq⟩
  · subst hx
    rw [he]
    dsimp only
    have hall : CachedEntitlement.allowed ⟨id, tier, some q, none, 2,
        some x, none⟩ now = true := by
      simp [CachedEntitlement.allowed, hq, hnow]
    rw [hall]
    unfold afterProbe
    dsimp only
    rw [if_neg (by simp)]
    rw [if_pos (by simp)]
    rw [hscript _ (by norm_num)]
    dsimp only
    rw [if_neg (by omega), if_neg (by omega), if_neg (by omega)]
    exact ⟨rfl, rfl, rfl, rfl, rfl, rfl⟩
  · rw [he]
    dsimp only
    have hall : CachedEntitlement.allowed ⟨id, tier, none, some q, 3,
        eo, none⟩ now = true := by
      simp [CachedEntitlement.allowed, hq]
    rw [hall]
    unfold afterProbe
    dsimp only
    rw [if_neg (by simp)]
    rw [if_pos (by simp)]
    rw [hscript _ (by norm_num)]
    dsimp only
    rw [if_neg (by omega), if_neg (by omega), if_neg (by omega)]
    exact ⟨rfl, rfl, rfl, rfl, rfl, rfl⟩

/-- C10 witness: a tier-2 cache hit with counter 10, cost header 3 and a
failing upstream: the response is 502 upstream_error and the counter ends
at 7. -/
theorem C10_upstream_failure_keeps_decrement_witness :
    (proxyHandler cfgEx ⟨some (.valid "0xA"), some (.valid "3"),
        some (.valid "svc1"), "/foo", none, none⟩
        { entitlement := some ⟨"e2", "t2", some 5, none, 2, some 1000,
            none⟩, entTtl := some 60, counter := some 10,
          counterTtl := some 60 } vresArb none 0).status = 502 ∧
    (proxyHandler cfgEx ⟨some (.valid "0xA"), some (.valid "3"),
        some (.valid "svc1"), "/foo", none, none⟩
        { entitlement := some ⟨"e2", "t2", some 5, none, 2, some 1000,
            none⟩, entTtl := some 60, counter := some 10,
          counterTtl := some 60 } vresArb none 0).error =
      some "upstream_error" ∧
    (proxyHandler cfgEx ⟨some (.valid "0xA"), some (.valid "3"),
        some (.valid "svc1"), "/foo", none, none⟩
        { entitlement := some ⟨"e2", "t2", some 5, none, 2, some 1000,
            none⟩, entTtl := some 60, counter := some 10,
          counterTtl := some 60 } vresArb none 0).cache.counter =
      some (10 - ((3 : Nat) : Int)) ∧
    (proxyHandler cfgEx ⟨some (.valid "0xA"), some (.valid "3"),
        some (.valid "svc1"), "/foo", none, none⟩
        { entitlement := some ⟨"e2", "t2", some 5, none, 2, some 1000,
            none⟩, entTtl := some 60, counter := some 10,
          counterTtl := some 60 } vresArb none 0).upstreamCalled = true ∧
    (proxyHandler cfgEx ⟨some (.valid "0xA"), some (.valid "3"),
        some (.valid "svc1"), "/foo", none, none⟩
        { entitlement := some ⟨"e2", "t2", some 5, none, 2, some 1000,
            none⟩, entTtl := some 60, counter := some 10,
          counterTtl := some 60 } vresArb none 0).allowedInc = 1 ∧
    (proxyHandler cfgEx ⟨some (.valid "0xA"), some (.valid "3"),
        some (.valid "svc1"), "/foo", none, none⟩
        { entitlement := some ⟨"e2", "t2", some 5, none, 2, some 1000,
            none⟩, entTtl := some 60, counter := some 10,
          counterTtl := some 60 } vresArb none 0).usageRecorded = false :=
  C10_upstream_failure_keeps_decrement cfgEx
    { entitlement := some ⟨"e2", "t2", some 5, none, 2, some 1000, none⟩,
      entTtl := some 60, counter := some 10, counterTtl := some 60 }
    vresArb 0 "0xA" "svc1" "/foo" "3" none none 3 "e2" "t2" 5
    (some 1000) none 10 (by decide) (by decide) rfl (by decide)
    (Or.inl ⟨rfl, by decide, 1000, rfl, by decide⟩)

end Infrapass
